import Mathlib

/-!
Verification of `stdlib-js/random-base-cauchy` (`src/lib/factory.js`,
`src/lib/validate.js`, and the transform `src/lib/cauchy.js`).

JavaScript double-precision values are modelled by `JsNum`: a finite value
(idealised as a rational, since no claim depends on rounding), the two
infinities, and NaN.  IEEE-754 special-value propagation (NaN absorption,
signed infinities, division by zero) is modelled explicitly; the negative
zero is identified with zero, which matches the sign conventions used below
(every finite zero behaves as `+0`).

The underlying standard-normal source (`@stdlib/random-base-improved-ziggurat`
over MT19937) is an external collaborator; per its capability contract it is
a deterministic state machine.  It is modelled as an abstract step function
`step : Buffer → JsNum × Buffer` over a state buffer of 32-bit words, and the
buffer-aliasing semantics of its `state` setter (same-length assignment
mutates the buffer in place, different-length assignment rebinds to a fresh
buffer) is modelled with an explicit heap of buffers.
-/

namespace Cauchy

/-- A JavaScript number: finite (idealised as an exact rational), `+Infinity`,
`-Infinity`, or `NaN`. -/
inductive JsNum where
  | fin (q : ℚ)
  | posInf
  | negInf
  | nan
deriving DecidableEq, Repr

namespace JsNum

/-- `@stdlib/math-base-assert-is-nan`: `x !== x`, i.e. the value is NaN. -/
def isnan : JsNum → Bool
  | .nan => true
  | _ => false

/-- IEEE-754 addition on `JsNum` (NaN absorbs; opposite infinities give NaN). -/
def add : JsNum → JsNum → JsNum
  | .nan, _ => .nan
  | _, .nan => .nan
  | .posInf, .negInf => .nan
  | .negInf, .posInf => .nan
  | .posInf, _ => .posInf
  | _, .posInf => .posInf
  | .negInf, _ => .negInf
  | _, .negInf => .negInf
  | .fin a, .fin b => .fin (a + b)

/-- IEEE-754 multiplication on `JsNum` (NaN absorbs; `±∞ * 0` gives NaN). -/
def mul : JsNum → JsNum → JsNum
  | .nan, _ => .nan
  | _, .nan => .nan
  | .posInf, .posInf => .posInf
  | .posInf, .negInf => .negInf
  | .negInf, .posInf => .negInf
  | .negInf, .negInf => .posInf
  | .posInf, .fin b => if b = 0 then .nan else if 0 < b then .posInf else .negInf
  | .negInf, .fin b => if b = 0 then .nan else if 0 < b then .negInf else .posInf
  | .fin a, .posInf => if a = 0 then .nan else if 0 < a then .posInf else .negInf
  | .fin a, .negInf => if a = 0 then .nan else if 0 < a then .negInf else .posInf
  | .fin a, .fin b => .fin (a * b)

/-- IEEE-754 division on `JsNum` (NaN absorbs; `∞/∞` and `0/0` give NaN;
a nonzero finite value divided by zero gives a signed infinity, the zero
behaving as `+0`). -/
def div : JsNum → JsNum → JsNum
  | .nan, _ => .nan
  | _, .nan => .nan
  | .posInf, .posInf => .nan
  | .posInf, .negInf => .nan
  | .negInf, .posInf => .nan
  | .negInf, .negInf => .nan
  | .posInf, .fin b => if 0 ≤ b then .posInf else .negInf
  | .negInf, .fin b => if 0 ≤ b then .negInf else .posInf
  | .fin _, .posInf => .fin 0
  | .fin _, .negInf => .fin 0
  | .fin a, .fin b =>
      if b = 0 then
        if a = 0 then .nan else if 0 < a then .posInf else .negInf
      else .fin (a / b)

/-- The JavaScript comparison `x <= y` (false whenever either side is NaN). -/
def jsLe : JsNum → JsNum → Bool
  | .nan, _ => false
  | _, .nan => false
  | .negInf, _ => true
  | _, .posInf => true
  | .posInf, _ => false
  | .fin _, .negInf => false
  | .fin a, .fin b => decide (a ≤ b)

/-- The JavaScript comparison `x < y` (false whenever either side is NaN). -/
def jsLt : JsNum → JsNum → Bool
  | .nan, _ => false
  | _, .nan => false
  | .negInf, .negInf => false
  | .negInf, _ => true
  | _, .negInf => false
  | .posInf, _ => false
  | .fin _, .posInf => true
  | .fin a, .fin b => decide (a < b)

/-- The value is a real number: finite or an infinity, but not NaN. -/
def isRealNum : JsNum → Bool
  | .nan => false
  | _ => true

/-- The value is finite (neither infinite nor NaN). -/
def isFinite : JsNum → Bool
  | .fin _ => true
  | _ => false

end JsNum

/-- A value stored under an option key: a function, a number, or some other
value distinguished by an opaque tag. -/
inductive OptVal where
  | fnVal
  | numVal (x : JsNum)
  | otherVal (tag : ℕ)
deriving DecidableEq, Repr

/-- The recognized factory option keys (`prng`, `seed`, `state`, `copy`),
each optionally present, together with the names of any unrecognized keys. -/
structure JsOptions where
  prng : Option OptVal
  seed : Option OptVal
  state : Option OptVal
  copy : Option OptVal
  extra : List String
deriving DecidableEq, Repr

/-- A general JavaScript value as seen by `validate` and by the factory's
argument checks: a primitive number, a plain object carrying factory options,
or anything else (string, boolean, `null`, `undefined`, function, array, …),
distinguished only by an opaque tag. -/
inductive JsVal where
  | num (x : JsNum)
  | obj (o : JsOptions)
  | other (tag : ℕ)
deriving DecidableEq, Repr

/-- `@stdlib/assert-is-number .isPrimitive`: the value is a primitive number
(NaN and the infinities included). -/
def isNumber : JsVal → Bool
  | .num _ => true
  | _ => false

/-- `@stdlib/assert-is-nan`: a primitive number that is NaN. -/
def isnanVal : JsVal → Bool
  | .num x => x.isnan
  | _ => false

/-- `@stdlib/assert-is-positive-number .isPrimitive`: a primitive number `x`
with `x > 0` (so `+Infinity` qualifies and NaN does not). -/
def isPositive : JsVal → Bool
  | .num x => JsNum.jsLt (.fin 0) x
  | _ => false

/-- `@stdlib/assert-is-plain-object`. -/
def isObject : JsVal → Bool
  | .obj _ => true
  | _ => false

/-- The two error kinds `validate` can produce (spec names `InvalidLocation`
and `InvalidScale`). -/
inductive ValError where
  | invalidLocation
  | invalidScale
deriving DecidableEq, Repr

/-- `src/lib/validate.js`: returns `InvalidLocation` when `x0` is not a
primitive number or is NaN, then `InvalidScale` when `gamma` is not a
positive primitive number, and otherwise no error. -/
def validate (x0 gamma : JsVal) : Option ValError :=
  if !(isNumber x0) || isnanVal x0 then some .invalidLocation
  else if !(isPositive gamma) then some .invalidScale
  else none

/-- A PRNG state buffer: an ordered sequence of 32-bit words.  Word values
are irrelevant to every claim, so they are kept as naturals. -/
abbrev Buffer := List ℕ

/-- The underlying standard-normal source, abstracted per the capability
contract: a deterministic step producing one draw and the advanced state. -/
abbrev NormStep := Buffer → JsNum × Buffer

/-- Modelled from the spec: `src/lib/cauchy.js` (required by
`src/lib/factory.js` but absent from the provided sources).  Per spec §4.2 it
draws two values `n1`, `n2` from the standard-normal source — each draw
advancing the source's state — and returns `x0 + gamma * (n1 / n2)`. -/
def cauchy0 (step : NormStep) (s : Buffer) (x0 gamma : JsNum) : JsNum × Buffer :=
  let p1 := step s
  let p2 := step p1.2
  (JsNum.add x0 (JsNum.mul gamma (JsNum.div p1.1 p2.1)), p2.2)

/-- `src/lib/factory.js` `cauchy1`: the bound-parameter call form; delegates
straight to `cauchy0` with the closure-captured `x0` and `gamma`. -/
def cauchy1 (step : NormStep) (x0 gamma : JsNum) (s : Buffer) : JsNum × Buffer :=
  cauchy0 step s x0 gamma

/-- `src/lib/factory.js` `cauchy2`: the unbound-parameter call form; returns
NaN without drawing when `x0` or `gamma` is NaN or `gamma <= 0`, and
otherwise delegates to `cauchy0`. -/
def cauchy2 (step : NormStep) (x0 gamma : JsNum) (s : Buffer) : JsNum × Buffer :=
  if x0.isnan || gamma.isnan || JsNum.jsLe gamma (.fin 0) then (.nan, s)
  else cauchy0 step s x0 gamma

/-- `n` successive draws of the bound-parameter form, collecting outputs and
threading the normal source's state. -/
def drawN (step : NormStep) (x0 gamma : JsNum) : ℕ → Buffer → List JsNum × Buffer
  | 0, s => ([], s)
  | n + 1, s =>
      let p := cauchy1 step x0 gamma s
      let rest := drawN step x0 gamma n p.2
      (p.1 :: rest.1, rest.2)

/-- `n` successive draws of the unbound-parameter form at fixed per-call
arguments. -/
def drawN2 (step : NormStep) (x0 gamma : JsNum) : ℕ → Buffer → List JsNum × Buffer
  | 0, s => ([], s)
  | n + 1, s =>
      let p := cauchy2 step x0 gamma s
      let rest := drawN2 step x0 gamma n p.2
      (p.1 :: rest.1, rest.2)

/-- The error kinds the factory can raise: the two option errors of
`src/lib/factory.js`, the two `validate` errors it propagates, and the
underlying generator's invalid-state error. -/
inductive FactoryError where
  | invalidOptions
  | invalidOptionPrng
  | invalidLocation
  | invalidScale
  | invalidState
deriving DecidableEq, Repr

/-- How the internal standard-normal source was constructed: `randn()` with
defaults, `randn({prng})` around an external uniform source, or `randn(opts)`
from the caller's recognized `seed`/`state`/`copy` options. -/
inductive RnormInit where
  | byDefault
  | fromPrng
  | fromOpts (seed state copy : Option OptVal)
deriving DecidableEq, Repr

/-- The shape of a constructed generator: its bound parameters (if any),
whether it is in the degraded external-PRNG mode (`opts && opts.prng`), and
how its normal source was initialised. -/
structure GenDescr where
  bound : Option (JsNum × JsNum)
  degraded : Bool
  init : RnormInit
deriving DecidableEq, Repr

/-- Extracts the primitive number from a `JsVal` known to be one (used only
after `validate` has succeeded). -/
def numOf : JsVal → JsNum
  | .num x => x
  | _ => .nan

/-- The option handling shared by the one-argument and three-argument factory
forms (`src/lib/factory.js` lines 84–96 and 106–118): reject a non-object,
reject a non-callable `prng`, construct `randn({prng})` when a callable
`prng` is supplied, and otherwise pass the options to `randn`, whose own
validation of `seed`/`state`/`copy` is the abstract `randnCheck` (it never
inspects unrecognized keys, per its documented contract). -/
def handleOpts (randnCheck : Option OptVal → Option OptVal → Option OptVal → Option FactoryError)
    (v : JsVal) : Except FactoryError (Bool × RnormInit) :=
  match v with
  | .obj o =>
      match o.prng with
      | some .fnVal => .ok (true, .fromPrng)
      | some _ => .error .invalidOptionPrng
      | none =>
          match randnCheck o.seed o.state o.copy with
          | some e => .error e
          | none => .ok (false, .fromOpts o.seed o.state o.copy)
  | _ => .error .invalidOptions

/-- The factory's three call forms. -/
inductive FactoryArgs where
  | noArgs
  | oneArg (v : JsVal)
  | withParams (x0 gamma : JsVal) (opts : Option JsVal)

/-- `src/lib/factory.js` `factory`: dispatch on the argument form, validate
parameters with `validate`, handle options with `handleOpts`, and record the
bound parameters, the degraded flag and the normal-source initialisation. -/
def factory (randnCheck : Option OptVal → Option OptVal → Option OptVal → Option FactoryError)
    (args : FactoryArgs) : Except FactoryError GenDescr :=
  match args with
  | .noArgs => .ok ⟨none, false, .byDefault⟩
  | .oneArg v =>
      match handleOpts randnCheck v with
      | .error e => .error e
      | .ok p => .ok ⟨none, p.1, p.2⟩
  | .withParams x0 gamma opt =>
      match validate x0 gamma with
      | some .invalidLocation => .error .invalidLocation
      | some .invalidScale => .error .invalidScale
      | none =>
          match opt with
          | none => .ok ⟨some (numOf x0, numOf gamma), false, .byDefault⟩
          | some v =>
              match handleOpts randnCheck v with
              | .error e => .error e
              | .ok p => .ok ⟨some (numOf x0, numOf gamma), p.1, p.2⟩

/-- Whether the call supplied an external `prng` option (the factory is then
in degraded mode). -/
def prngSupplied : FactoryArgs → Bool
  | .oneArg (.obj o) => o.prng.isSome
  | .withParams _ _ (some (.obj o)) => o.prng.isSome
  | _ => false

/-- `@stdlib/array-to-json` applied to a `Uint32Array`: a plain object with
the constructor name and the element data. -/
structure TypedArrayJSON where
  type : String
  data : Buffer
deriving DecidableEq, Repr

/-- `typedarray2json` for the `Uint32Array` state snapshots used here. -/
def typedarray2json (b : Buffer) : TypedArrayJSON :=
  ⟨"Uint32Array", b⟩

/-- The object returned by the generator's `toJSON` method. -/
structure SerializedPRNG where
  type : String
  name : String
  state : TypedArrayJSON
  params : List JsNum
deriving DecidableEq, Repr

/-- `src/lib/factory.js` `toJSON`: `type` is `'PRNG'`, `name` is the
generator's `NAME`, `state` serializes the underlying generator's current
state, and `params` is empty when `x0` is undefined (unbound) and
`[x0, gamma]` otherwise. -/
def toJSON (bound : Option (JsNum × JsNum)) (curState : Buffer) : SerializedPRNG :=
  { type := "PRNG"
    name := "cauchy"
    state := typedarray2json curState
    params := match bound with
      | none => []
      | some p => [p.1, p.2] }

/-- The exposed fields of the underlying normal generator object (`rand` in
`src/lib/factory.js`), abstracted per the capability contract. -/
structure MTLike where
  seedVal : Buffer
  seedLen : ℕ
  stateVal : Buffer
  stateLen : ℕ
  byteLen : ℕ
deriving DecidableEq, Repr

/-- The six state-related members installed on a generator.  `seed`,
`seedLength`, `stateRead`, `stateLength`, `byteLength` and `json` are `none`
exactly when the corresponding property reads `null`; `writeState` is the
effect of assigning a snapshot to `state` on the underlying generator's
buffer (identity when the setter is a no-op). -/
structure Accessors where
  seed : Option Buffer
  seedLength : Option ℕ
  stateRead : Option Buffer
  writeState : Buffer → Buffer → Buffer
  stateLength : Option ℕ
  byteLength : Option ℕ
  json : Option SerializedPRNG

/-- `src/lib/factory.js` lines 131–147: with an external PRNG every accessor
is `null`, the `state` setter is a no-op and `toJSON` returns `null`;
otherwise the accessors mirror `rand` and assigning `state` forwards the
snapshot to `rand`. -/
def installProps (g : GenDescr) (rand : MTLike) : Accessors :=
  if g.degraded then
    { seed := none
      seedLength := none
      stateRead := none
      writeState := fun _ cur => cur
      stateLength := none
      byteLength := none
      json := none }
  else
    { seed := some rand.seedVal
      seedLength := some rand.seedLen
      stateRead := some rand.stateVal
      writeState := fun snap _ => snap
      stateLength := some rand.stateLen
      byteLength := some rand.byteLen
      json := some (toJSON g.bound rand.stateVal) }

/-- `src/lib/factory.js` `getState` (line 196): returns `rand.state`; with
value semantics this is the copy the underlying generator's getter makes. -/
def getState (buf : Buffer) : Buffer := buf

/-- `src/lib/factory.js` `setState` (line 207): assigns the snapshot to
`rand.state`, making it the normal source's current state. -/
def setState (_buf snap : Buffer) : Buffer := snap

/-- Call dispatch of a constructed generator: the bound form ignores per-call
arguments, the unbound form validates them via `cauchy2`. -/
def genCall (step : NormStep) (g : GenDescr) (s : Buffer) (x0 gamma : JsNum) :
    JsNum × Buffer :=
  match g.bound with
  | some p => cauchy1 step p.1 p.2 s
  | none => cauchy2 step x0 gamma s

/-- Modelled from the spec (§4.4, §5): the buffer-aliasing contract of the
external MT19937 collaborator under `copy: false`.  The heap is the list of
live state buffers; a generator holds an index into it. -/
def heapGet (h : List Buffer) (r : ℕ) : Buffer := h.getD r []

/-- Modelled from the spec (§4.4, §5): assigning a snapshot to a sharing
generator's `state`.  A snapshot of the same length as the current buffer is
written into that buffer in place (visible to every sharer); a snapshot of a
different length is installed as a fresh buffer and the generator is rebound
to it, detaching it from its co-owners.  Returns the new heap and the
generator's (possibly new) buffer index. -/
def mtSetState (h : List Buffer) (r : ℕ) (snap : Buffer) : List Buffer × ℕ :=
  if snap.length = (heapGet h r).length then (h.set r snap, r)
  else (h ++ [snap], h.length)

/-- One draw of a `copy: false` generator bound to buffer `r`: reads the
shared buffer, advances it in place, returns the variate and the new heap. -/
def sharedDraw (step : NormStep) (x0 gamma : JsNum) (h : List Buffer) (r : ℕ) :
    JsNum × List Buffer :=
  let p := cauchy1 step x0 gamma (heapGet h r)
  (p.1, h.set r p.2)

/-- A concrete deterministic stand-in for the normal source, used to witness
theorems at explicit inputs: state `[k]` yields the draw `k + 1` and advances
to `[k + 1]`. -/
def toyStep : NormStep :=
  fun s =>
    let k := s.headD 0
    (JsNum.fin ((k : ℚ) + 1), [k + 1])

/-- A concrete normal source that always draws `0`, witnessing the IEEE
`0/0` corner of the transform. -/
def zeroStep : NormStep := fun s => (JsNum.fin 0, s)

/-- C1: for a generator with internally owned state and fixed parameters,
capturing `state` (`getState`, a copy of the current snapshot), drawing `n`
values, restoring the snapshot (`setState`), and drawing `n` values again
reproduces the first output list bit for bit — for every `n`, hence in
particular for `n = 100`. -/
theorem state_capture_replay (step : NormStep) (x0 gamma : JsNum) (n : ℕ)
    (buf : Buffer) :
    (drawN step x0 gamma n
      (setState (drawN step x0 gamma n buf).2 (getState buf))).1
      = (drawN step x0 gamma n buf).1 := rfl

/-- C2: every invocation, in the bound form (`cauchy1`) or the unbound form
with valid parameters (`cauchy2`), draws exactly two values from the normal
source — leaving it in the state after two steps — and returns
`x0 + gamma * (n1 / n2)`. -/
theorem call_draws_two_normals (step : NormStep) (x0 gamma : JsNum) (s : Buffer)
    (h1 : x0.isnan = false) (h2 : gamma.isnan = false)
    (h3 : JsNum.jsLe gamma (.fin 0) = false) :
    cauchy1 step x0 gamma s
      = (JsNum.add x0 (JsNum.mul gamma
          (JsNum.div (step s).1 (step (step s).2).1)), (step (step s).2).2)
    ∧ cauchy2 step x0 gamma s = cauchy1 step x0 gamma s := by
  refine ⟨rfl, ?_⟩
  simp [cauchy2, cauchy1, h1, h2, h3]

/-- Witness for C2 at the concrete source `toyStep`, `x0 = 2`, `gamma = 3`,
state `[0]` (draws `n1 = 1`, `n2 = 2`). -/
theorem call_draws_two_normals_witness :
    cauchy1 toyStep (.fin 2) (.fin 3) [0]
      = (JsNum.add (.fin 2) (JsNum.mul (.fin 3)
          (JsNum.div (toyStep [0]).1 (toyStep (toyStep [0]).2).1)),
         (toyStep (toyStep [0]).2).2)
    ∧ cauchy2 toyStep (.fin 2) (.fin 3) [0] = cauchy1 toyStep (.fin 2) (.fin 3) [0] :=
  call_draws_two_normals toyStep (.fin 2) (.fin 3) [0] rfl rfl (by decide)

/-- C8: for a non-degraded generator, `toJSON` reflects the current snapshot
at the moment of the call, `type` is `"PRNG"`, `name` is `"cauchy"`, and
`params` is `[]` when unbound and `[x0, gamma]` when bound. -/
theorem serialize_shape (g : GenDescr) (rand : MTLike) (x0 gamma : JsNum)
    (cur : Buffer) (hdeg : g.degraded = false) :
    (installProps g rand).json = some (toJSON g.bound rand.stateVal)
    ∧ (toJSON g.bound cur).type = "PRNG"
    ∧ (toJSON g.bound cur).name = "cauchy"
    ∧ (toJSON g.bound cur).state = typedarray2json cur
    ∧ (toJSON none cur).params = []
    ∧ (toJSON (some (x0, gamma)) cur).params = [x0, gamma] := by
  refine ⟨?_, rfl, rfl, rfl, rfl, rfl⟩
  simp [installProps, hdeg]

/-- Witness for C8 at a concrete non-degraded generator. -/
theorem serialize_shape_witness :
    (installProps ⟨some (.fin 2, .fin 3), false, .byDefault⟩ ⟨[1], 1, [4, 5], 2, 8⟩).json
      = some (toJSON (some (.fin 2, .fin 3)) [4, 5])
    ∧ (toJSON (some (.fin 2, .fin 3)) [9]).type = "PRNG"
    ∧ (toJSON (some (.fin 2, .fin 3)) [9]).name = "cauchy"
    ∧ (toJSON (some (.fin 2, .fin 3)) [9]).state = typedarray2json [9]
    ∧ (toJSON none [9]).params = []
    ∧ (toJSON (some (.fin 2, .fin 3)) [9]).params = [.fin 2, .fin 3] :=
  serialize_shape ⟨some (.fin 2, .fin 3), false, .byDefault⟩ ⟨[1], 1, [4, 5], 2, 8⟩
    (.fin 2) (.fin 3) [9] rfl

/-- C10: an unbound call with invalid parameters returns NaN with the normal
source's state untouched, so any later run of valid draws produces exactly
the sequence it would have produced had the invalid call never happened. -/
theorem invalid_call_state_unchanged (step : NormStep)
    (x0 gamma x0' gamma' : JsNum) (s : Buffer) (n : ℕ)
    (hinv : (x0.isnan || gamma.isnan || JsNum.jsLe gamma (.fin 0)) = true) :
    cauchy2 step x0 gamma s = (.nan, s)
    ∧ drawN2 step x0' gamma' n (cauchy2 step x0 gamma s).2
        = drawN2 step x0' gamma' n s := by
  have hc : cauchy2 step x0 gamma s = (.nan, s) := by
    simp [cauchy2, hinv]
  exact ⟨hc, by rw [hc]⟩

/-- Witness for C10 at `x0 = NaN`, `gamma = 1`, concrete source `toyStep`. -/
theorem invalid_call_state_unchanged_witness :
    cauchy2 toyStep .nan (.fin 1) [0] = (.nan, [0])
    ∧ drawN2 toyStep (.fin 2) (.fin 3) 2 (cauchy2 toyStep .nan (.fin 1) [0]).2
        = drawN2 toyStep (.fin 2) (.fin 3) 2 [0] :=
  invalid_call_state_unchanged toyStep .nan (.fin 1) (.fin 2) (.fin 3) [0] 2 rfl

/-- C3 counterexample: with finite `x0 = 0` and `gamma = 1 > 0`, a normal
source whose two draws are both exactly `0` makes the unbound call return
NaN (`0/0` is NaN under IEEE-754), not a finite-or-infinite real number. -/
theorem cauchy2_zero_draws_nan :
    JsNum.isRealNum (cauchy2 zeroStep (.fin 0) (.fin 1) []).1 = false := by decide

/-- C3 (amended): an unbound call with `x0` NaN, `gamma` NaN or `gamma <= 0`
returns NaN; with finite `x0` and `gamma > 0` it returns a finite-or-infinite
real number provided the two draws of the normal source are finite and not
both zero (when both are zero the result is NaN, see the counterexample);
nothing throws. -/
theorem cauchy2_edge_contract (step : NormStep) (s : Buffer)
    (xb gb : JsNum) (a g n1 n2 : ℚ)
    (hinv : (xb.isnan || gb.isnan || JsNum.jsLe gb (.fin 0)) = true)
    (hg : 0 < g)
    (hn1 : (step s).1 = .fin n1) (hn2 : (step (step s).2).1 = .fin n2)
    (hz : n1 ≠ 0 ∨ n2 ≠ 0) :
    cauchy2 step xb gb s = (.nan, s)
    ∧ JsNum.isRealNum (cauchy2 step (.fin a) (.fin g) s).1 = true := by
  constructor
  · simp [cauchy2, hinv]
  · have hle : JsNum.jsLe (.fin g) (.fin 0) = false := by
      simp [JsNum.jsLe]
      linarith
    have hred : cauchy2 step (.fin a) (.fin g) s = cauchy0 step s (.fin a) (.fin g) := by
      simp [cauchy2, JsNum.isnan, hle]
    rw [hred]
    simp only [cauchy0, hn1, hn2]
    by_cases h2 : n2 = 0
    · subst h2
      have h1 : n1 ≠ 0 := hz.resolve_right (by simp)
      by_cases hpos : 0 < n1
      · simp [JsNum.div, h1, hpos, JsNum.mul, ne_of_gt hg, hg, JsNum.add,
          JsNum.isRealNum]
      · have hneg : ¬ (0 < n1) := hpos
        simp [JsNum.div, h1, hpos, JsNum.mul, ne_of_gt hg, hg, JsNum.add,
          JsNum.isRealNum]
    · simp [JsNum.div, h2, JsNum.mul, JsNum.add, JsNum.isRealNum]

/-- Witness for C3's amended theorem: `toyStep` from `[0]` draws `1` and `2`,
and the invalid branch at `x0 = NaN`. -/
theorem cauchy2_edge_contract_witness :
    cauchy2 toyStep .nan (.fin 1) [0] = (.nan, [0])
    ∧ JsNum.isRealNum (cauchy2 toyStep (.fin 0) (.fin 1) [0]).1 = true :=
  cauchy2_edge_contract toyStep [0] .nan (.fin 1) 0 1 1 2 rfl (by norm_num)
    (by norm_num [toyStep]) (by norm_num [toyStep]) (Or.inl (by norm_num))

/-- C4 counterexample: `validate` accepts an infinite location (`x0 = +∞` is
a primitive number and not NaN) and an infinite scale (`+∞ > 0`), although
neither is a finite real number. -/
theorem validate_accepts_infinite :
    validate (.num .posInf) (.num (.fin 1)) = none
    ∧ validate (.num (.fin 0)) (.num .posInf) = none := by decide

/-- C4 (amended): `validate` fails with `InvalidLocation` exactly when `x0`
is not a primitive number or is NaN (infinities are accepted), fails with
`InvalidScale` exactly when `x0` passed and `gamma` is not a primitive
number greater than zero (`+∞` is accepted), and succeeds otherwise; the
bound-parameter factory form propagates exactly these outcomes. -/
theorem validate_characterization (x0 gamma : JsVal)
    (randnCheck : Option OptVal → Option OptVal → Option OptVal → Option FactoryError) :
    (validate x0 gamma = some .invalidLocation ↔
      (isNumber x0 = false ∨ isnanVal x0 = true))
    ∧ (validate x0 gamma = some .invalidScale ↔
      (isNumber x0 = true ∧ isnanVal x0 = false ∧ isPositive gamma = false))
    ∧ (validate x0 gamma = none ↔
      (isNumber x0 = true ∧ isnanVal x0 = false ∧ isPositive gamma = true))
    ∧ (validate x0 gamma = some .invalidLocation →
      factory randnCheck (.withParams x0 gamma none) = .error .invalidLocation)
    ∧ (validate x0 gamma = some .invalidScale →
      factory randnCheck (.withParams x0 gamma none) = .error .invalidScale)
    ∧ (validate x0 gamma = none →
      factory randnCheck (.withParams x0 gamma none)
        = .ok ⟨some (numOf x0, numOf gamma), false, .byDefault⟩) := by
  cases ha : isNumber x0 <;> cases hb : isnanVal x0 <;> cases hc : isPositive gamma <;>
    simp [validate, factory, ha, hb, hc]

/-- Witness for C4's amended theorem: `validate (1, 2)` succeeds and the
three-argument factory form returns the bound generator. -/
theorem validate_characterization_witness :
    factory (fun _ _ _ => none) (.withParams (.num (.fin 1)) (.num (.fin 2)) none)
      = .ok ⟨some (.fin 1, .fin 2), false, .byDefault⟩ :=
  (validate_characterization (.num (.fin 1)) (.num (.fin 2))
    (fun _ _ _ => none)).2.2.2.2.2 (by decide)

/-- C5: a generator is degraded exactly when the construction supplied an
external `prng` option; in degraded mode all six state members are the null
sentinel and the `state` setter is a no-op, and otherwise they mirror the
underlying normal generator (seed, seed length, state, state length, byte
length, serialization). -/
theorem degraded_mode_accessors
    (randnCheck : Option OptVal → Option OptVal → Option OptVal → Option FactoryError)
    (args : FactoryArgs) (g : GenDescr) (rand : MTLike)
    (hok : factory randnCheck args = .ok g) :
    g.degraded = prngSupplied args
    ∧ (g.degraded = true →
        installProps g rand
          = ⟨none, none, none, fun _ cur => cur, none, none, none⟩)
    ∧ (g.degraded = false →
        installProps g rand
          = ⟨some rand.seedVal, some rand.seedLen, some rand.stateVal,
             fun snap _ => snap, some rand.stateLen, some rand.byteLen,
             some (toJSON g.bound rand.stateVal)⟩) := by
  refine ⟨?_, fun hd => by simp [installProps, hd], fun hd => by simp [installProps, hd]⟩
  cases args with
  | noArgs =>
      simp only [factory, Except.ok.injEq] at hok
      subst hok
      rfl
  | oneArg v =>
      cases v with
      | num x => simp [factory, handleOpts] at hok
      | other t => simp [factory, handleOpts] at hok
      | obj o =>
          cases hp : o.prng with
          | some w =>
              cases w with
              | fnVal =>
                  simp only [factory, handleOpts, hp, Except.ok.injEq] at hok
                  subst hok
                  simp [prngSupplied, hp]
              | numVal x => simp [factory, handleOpts, hp] at hok
              | otherVal t => simp [factory, handleOpts, hp] at hok
          | none =>
              cases hrc : randnCheck o.seed o.state o.copy with
              | some e => simp [factory, handleOpts, hp, hrc] at hok
              | none =>
                  simp only [factory, handleOpts, hp, hrc, Except.ok.injEq] at hok
                  subst hok
                  simp [prngSupplied, hp]
  | withParams x0 gamma opt =>
      cases hv : validate x0 gamma with
      | some e => cases e <;> simp [factory, hv] at hok
      | none =>
          cases opt with
          | none =>
              simp only [factory, hv, Except.ok.injEq] at hok
              subst hok
              rfl
          | some v =>
              cases v with
              | num x => simp [factory, hv, handleOpts] at hok
              | other t => simp [factory, hv, handleOpts] at hok
              | obj o =>
                  cases hp : o.prng with
                  | some w =>
                      cases w with
                      | fnVal =>
                          simp only [factory, hv, handleOpts, hp, Except.ok.injEq] at hok
                          subst hok
                          simp [prngSupplied, hp]
                      | numVal x => simp [factory, hv, handleOpts, hp] at hok
                      | otherVal t => simp [factory, hv, handleOpts, hp] at hok
                  | none =>
                      cases hrc : randnCheck o.seed o.state o.copy with
                      | some e => simp [factory, hv, handleOpts, hp, hrc] at hok
                      | none =>
                          simp only [factory, hv, handleOpts, hp, hrc,
                            Except.ok.injEq] at hok
                          subst hok
                          simp [prngSupplied, hp]

/-- Witness for C5: a generator built with an external `prng` option has all
members nulled with a no-op setter, and one built without mirrors the
underlying generator. -/
theorem degraded_mode_accessors_witness :
    installProps ⟨none, true, .fromPrng⟩ ⟨[1], 1, [2], 1, 4⟩
      = ⟨none, none, none, fun _ cur => cur, none, none, none⟩
    ∧ installProps ⟨none, false, .fromOpts none none none⟩ ⟨[1], 1, [2], 1, 4⟩
      = ⟨some [1], some 1, some [2], fun snap _ => snap, some 1, some 4,
         some (toJSON none [2])⟩ :=
  ⟨(degraded_mode_accessors (fun _ _ _ => none)
      (.oneArg (.obj ⟨some .fnVal, none, none, none, []⟩))
      ⟨none, true, .fromPrng⟩ ⟨[1], 1, [2], 1, 4⟩ rfl).2.1 rfl,
   (degraded_mode_accessors (fun _ _ _ => none)
      (.oneArg (.obj ⟨none, none, none, none, []⟩))
      ⟨none, false, .fromOpts none none none⟩ ⟨[1], 1, [2], 1, 4⟩ rfl).2.2 rfl⟩

/-- C7: binding `x0 = 2`, `gamma = 3` at construction with a seed, and
leaving them unbound with the same seed but supplying `(2, 3)` per call,
yield generators whose normal sources are initialised identically
(`fromOpts` of the same seed) and whose first outputs from the common
initial state agree. -/
theorem seed_binding_independent (step : NormStep) (s0 : Buffer)
    (randnCheck : Option OptVal → Option OptVal → Option OptVal → Option FactoryError)
    (seedVal : OptVal)
    (hrc : randnCheck (some seedVal) none none = none) :
    factory randnCheck (.withParams (.num (.fin 2)) (.num (.fin 3))
        (some (.obj ⟨none, some seedVal, none, none, []⟩)))
      = .ok ⟨some (.fin 2, .fin 3), false, .fromOpts (some seedVal) none none⟩
    ∧ factory randnCheck (.oneArg (.obj ⟨none, some seedVal, none, none, []⟩))
      = .ok ⟨none, false, .fromOpts (some seedVal) none none⟩
    ∧ (genCall step ⟨some (.fin 2, .fin 3), false,
          .fromOpts (some seedVal) none none⟩ s0 .nan .nan).1
      = (genCall step ⟨none, false, .fromOpts (some seedVal) none none⟩ s0
          (.fin 2) (.fin 3)).1 := by
  refine ⟨?_, ?_, ?_⟩
  · norm_num [factory, handleOpts, hrc, validate, isNumber, isnanVal, isPositive,
      JsNum.jsLt, JsNum.isnan, numOf]
  · simp [factory, handleOpts, hrc]
  · norm_num [genCall, cauchy2, cauchy1, JsNum.isnan, JsNum.jsLe]

/-- Witness for C7 at seed value `12345`, concrete source `toyStep`, initial
state `[0]`. -/
theorem seed_binding_independent_witness :
    factory (fun _ _ _ => none) (.withParams (.num (.fin 2)) (.num (.fin 3))
        (some (.obj ⟨none, some (.numVal (.fin 12345)), none, none, []⟩)))
      = .ok ⟨some (.fin 2, .fin 3), false,
          .fromOpts (some (.numVal (.fin 12345))) none none⟩
    ∧ factory (fun _ _ _ => none)
        (.oneArg (.obj ⟨none, some (.numVal (.fin 12345)), none, none, []⟩))
      = .ok ⟨none, false, .fromOpts (some (.numVal (.fin 12345))) none none⟩
    ∧ (genCall toyStep ⟨some (.fin 2, .fin 3), false,
          .fromOpts (some (.numVal (.fin 12345))) none none⟩ [0] .nan .nan).1
      = (genCall toyStep ⟨none, false,
          .fromOpts (some (.numVal (.fin 12345))) none none⟩ [0]
          (.fin 2) (.fin 3)).1 :=
  seed_binding_independent toyStep [0] (fun _ _ _ => none)
    (.numVal (.fin 12345)) rfl

/-- C9: the factory rejects a non-object options argument and a present but
non-callable `prng` option (both raised as the spec's `InvalidOptions`
taxonomy, modelled by `invalidOptions` and `invalidOptionPrng`), in the
one-argument and the three-argument forms alike; unrecognized option keys
never change the outcome. -/
theorem options_validation
    (randnCheck : Option OptVal → Option OptVal → Option OptVal → Option FactoryError)
    (v : JsVal) (o o2 : JsOptions) (w : OptVal) (x0 gamma : JsVal) (l : List String)
    (hobj : isObject v = false)
    (hprng : o.prng = some w) (hfn : w ≠ .fnVal)
    (hval : validate x0 gamma = none) :
    factory randnCheck (.oneArg v) = .error .invalidOptions
    ∧ factory randnCheck (.withParams x0 gamma (some v)) = .error .invalidOptions
    ∧ factory randnCheck (.oneArg (.obj o)) = .error .invalidOptionPrng
    ∧ factory randnCheck (.withParams x0 gamma (some (.obj o)))
        = .error .invalidOptionPrng
    ∧ factory randnCheck (.oneArg (.obj { o2 with extra := l }))
        = factory randnCheck (.oneArg (.obj { o2 with extra := [] })) := by
  have hw : handleOpts randnCheck (.obj o) = .error .invalidOptionPrng := by
    cases w with
    | fnVal => exact absurd rfl hfn
    | numVal x => simp [handleOpts, hprng]
    | otherVal t => simp [handleOpts, hprng]
  have hv' : handleOpts randnCheck v = .error .invalidOptions := by
    cases v with
    | num x => rfl
    | other t => rfl
    | obj o3 => simp [isObject] at hobj
  refine ⟨?_, ?_, ?_, ?_, ?_⟩
  · simp [factory, hv']
  · simp [factory, hval, hv']
  · simp [factory, hw]
  · simp [factory, hval, hw]
  · cases hp : o2.prng with
    | some w2 => cases w2 <;> simp [factory, handleOpts, hp]
    | none =>
        cases hrc : randnCheck o2.seed o2.state o2.copy with
        | some e => simp [factory, handleOpts, hp, hrc]
        | none => simp [factory, handleOpts, hp, hrc]

/-- Witness for C9: a numeric options argument, a numeric `prng` option, and
an unrecognized key `"color"`. -/
theorem options_validation_witness :
    factory (fun _ _ _ => none) (.oneArg (.other 0)) = .error .invalidOptions
    ∧ factory (fun _ _ _ => none)
        (.withParams (.num (.fin 0)) (.num (.fin 1)) (some (.other 0)))
      = .error .invalidOptions
    ∧ factory (fun _ _ _ => none)
        (.oneArg (.obj ⟨some (.otherVal 7), none, none, none, []⟩))
      = .error .invalidOptionPrng
    ∧ factory (fun _ _ _ => none)
        (.withParams (.num (.fin 0)) (.num (.fin 1))
          (some (.obj ⟨some (.otherVal 7), none, none, none, []⟩)))
      = .error .invalidOptionPrng
    ∧ factory (fun _ _ _ => none)
        (.oneArg (.obj ⟨some .fnVal, none, none, none, ["color"]⟩))
      = factory (fun _ _ _ => none)
        (.oneArg (.obj ⟨some .fnVal, none, none, none, []⟩)) :=
  options_validation (fun _ _ _ => none) (.other 0)
    ⟨some (.otherVal 7), none, none, none, []⟩
    ⟨some .fnVal, none, none, none, []⟩ (.otherVal 7)
    (.num (.fin 0)) (.num (.fin 1)) ["color"] rfl rfl (by decide) (by decide)

/-- Reading back a buffer just written at a live index. -/
theorem heapGet_set_self (h : List Buffer) (r : ℕ) (s : Buffer)
    (hr : r < h.length) : heapGet (h.set r s) r = s := by
  induction h generalizing r with
  | nil => simp at hr
  | cons a t ih =>
      cases r with
      | zero => rfl
      | succ r => exact ih r (Nat.lt_of_succ_lt_succ hr)

/-- Writing one buffer leaves every other index unchanged. -/
theorem heapGet_set_ne (h : List Buffer) (r r' : ℕ) (s : Buffer)
    (hne : r ≠ r') : heapGet (h.set r s) r' = heapGet h r' := by
  induction h generalizing r r' with
  | nil => rfl
  | cons a t ih =>
      cases r with
      | zero =>
          cases r' with
          | zero => exact absurd rfl hne
          | succ r' => rfl
      | succ r =>
          cases r' with
          | zero => rfl
          | succ r' => exact ih r r' (fun hh => hne (by rw [hh]))

/-- Appending buffers does not disturb live indices. -/
theorem heapGet_append_lt (h l : List Buffer) (r : ℕ) (hr : r < h.length) :
    heapGet (h ++ l) r = heapGet h r := by
  induction h generalizing r with
  | nil => simp at hr
  | cons a t ih =>
      cases r with
      | zero => rfl
      | succ r => exact ih r (Nat.lt_of_succ_lt_succ hr)

/-- A freshly appended buffer is read back at the old length. -/
theorem heapGet_append_self (h : List Buffer) (s : Buffer) :
    heapGet (h ++ [s]) h.length = s := by
  induction h with
  | nil => rfl
  | cons a t ih => exact ih

/-- C6: two `copy: false` generators over buffer `r` are interleaved — one
generator's draw advances the buffer the other reads next, so consecutive
draws by the two trace the single-generator stream — and an equal-length
`state` assignment writes the shared buffer in place.  Assigning a snapshot
of a different length detaches the assigning generator: it is rebound to a
fresh index, the other generator's buffer is not updated, the two now draw
from their own buffers (so their outputs differ whenever the draws from the
two buffers differ), and a draw by the detached-from generator no longer
touches the detached one's buffer. -/
theorem copy_false_sharing_detach (step : NormStep) (x0 gamma : JsNum)
    (h : List Buffer) (r : ℕ) (snap snap2 z : Buffer)
    (hr : r < h.length)
    (hne : snap.length ≠ (heapGet h r).length)
    (heq : snap2.length = (heapGet h r).length) :
    (sharedDraw step x0 gamma h r).1 = (cauchy1 step x0 gamma (heapGet h r)).1
    ∧ (sharedDraw step x0 gamma (sharedDraw step x0 gamma h r).2 r).1
        = (cauchy1 step x0 gamma (cauchy1 step x0 gamma (heapGet h r)).2).1
    ∧ mtSetState h r snap2 = (h.set r snap2, r)
    ∧ heapGet (h.set r snap2) r = snap2
    ∧ (mtSetState h r snap).2 ≠ r
    ∧ heapGet (mtSetState h r snap).1 r = heapGet h r
    ∧ heapGet (mtSetState h r snap).1 (mtSetState h r snap).2 = snap
    ∧ (sharedDraw step x0 gamma (mtSetState h r snap).1 (mtSetState h r snap).2).1
        = (cauchy1 step x0 gamma snap).1
    ∧ (sharedDraw step x0 gamma (mtSetState h r snap).1 r).1
        = (cauchy1 step x0 gamma (heapGet h r)).1
    ∧ heapGet ((mtSetState h r snap).1.set r z) (mtSetState h r snap).2 = snap
    ∧ ((cauchy1 step x0 gamma snap).1 ≠ (cauchy1 step x0 gamma (heapGet h r)).1 →
        (sharedDraw step x0 gamma (mtSetState h r snap).1 (mtSetState h r snap).2).1
          ≠ (sharedDraw step x0 gamma (mtSetState h r snap).1 r).1) := by
  have hm : mtSetState h r snap = (h ++ [snap], h.length) := by
    simp [mtSetState, hne]
  have e2 : (sharedDraw step x0 gamma (sharedDraw step x0 gamma h r).2 r).1
      = (cauchy1 step x0 gamma (cauchy1 step x0 gamma (heapGet h r)).2).1 := by
    simp only [sharedDraw]
    rw [heapGet_set_self h r _ hr]
  have e8 : (sharedDraw step x0 gamma (mtSetState h r snap).1
      (mtSetState h r snap).2).1 = (cauchy1 step x0 gamma snap).1 := by
    rw [hm]
    simp only [sharedDraw]
    rw [heapGet_append_self]
  have e9 : (sharedDraw step x0 gamma (mtSetState h r snap).1 r).1
      = (cauchy1 step x0 gamma (heapGet h r)).1 := by
    rw [hm]
    simp only [sharedDraw]
    rw [heapGet_append_lt h [snap] r hr]
  refine ⟨rfl, e2, by simp [mtSetState, heq], heapGet_set_self h r snap2 hr,
    ?_, ?_, ?_, e8, e9, ?_, ?_⟩
  · rw [hm]
    exact (Nat.ne_of_lt hr).symm
  · rw [hm]
    exact heapGet_append_lt h [snap] r hr
  · rw [hm]
    exact heapGet_append_self h snap
  · rw [hm]
    have : heapGet ((h ++ [snap]).set r z) h.length = heapGet (h ++ [snap]) h.length :=
      heapGet_set_ne (h ++ [snap]) r h.length z (Nat.ne_of_lt hr)
    rw [this]
    exact heapGet_append_self h snap
  · intro hd
    rw [e8, e9]
    exact hd

/-- Witness for C6 at the one-buffer heap `[[5]]`, a length-2 snapshot
`[7, 8]`, a same-length snapshot `[9]`, and the concrete source `toyStep`,
including an actual divergence of the detached outputs. -/
theorem copy_false_sharing_detach_witness :
    (sharedDraw toyStep (.fin 0) (.fin 1) [[5]] 0).1
      = (cauchy1 toyStep (.fin 0) (.fin 1) (heapGet [[5]] 0)).1
    ∧ mtSetState [[5]] 0 [9] = ([[9]], 0)
    ∧ (mtSetState [[5]] 0 [7, 8]).2 ≠ 0
    ∧ heapGet (mtSetState [[5]] 0 [7, 8]).1 0 = heapGet [[5]] 0
    ∧ (sharedDraw toyStep (.fin 0) (.fin 1) (mtSetState [[5]] 0 [7, 8]).1
        (mtSetState [[5]] 0 [7, 8]).2).1
      ≠ (sharedDraw toyStep (.fin 0) (.fin 1) (mtSetState [[5]] 0 [7, 8]).1 0).1 := by
  have H := copy_false_sharing_detach toyStep (.fin 0) (.fin 1) [[5]] 0 [7, 8] [9] [3]
    (by decide) (by decide) (by decide)
  obtain ⟨c1, c2, c3, c4, c5, c6, c7, c8, c9, c10, c11⟩ := H
  refine ⟨c1, c3, c5, c6, c11 ?_⟩
  norm_num [cauchy1, cauchy0, toyStep, heapGet, JsNum.add, JsNum.mul, JsNum.div]

end Cauchy
